import Mathlib

/-!
# drivers/clocksource/dw_apb_timer_of.c

A shallow embedding of the device-tree glue of the DesignWare APB timer
driver.  Every C function of the file becomes a Lean function of the same
name.  The calls the file makes into the rest of the kernel are answered
from an explicit record of the node (`device_node`) and of the host
(`Env`); every call that has an effect outside the file is appended, in
program order, to a trace of `Event`s carried by the `State`.

Conventions.
* `u32` values are naturals reduced modulo `2 ^ 32`; `unsigned long`
  values are reduced modulo `2 ^ BITS_PER_LONG`.
* `void __iomem *` values are addresses (naturals); `0` is `NULL`.
  Pointer arithmetic inside a mapped window does not wrap.
* `panic()` does not return: a function that panics yields
  `Result.panic msg trace` with the message and the trace so far.
-/

namespace DwApbTimerOf

/-! ## Data model -/

/-- A clock handle as the clock framework answers for it: the value
returned by `clk_prepare_enable` (zero on success) and the value returned by
`clk_get_rate`. -/
structure clk where
  prepare_enable : Int
  rate : Nat
  deriving DecidableEq, Repr

/-- The part of a device-tree node that the driver queries.

* `name`: `np->name`, also what `%pOFn` prints;
* `iomap`: result of `of_iomap(np, 0)`, `0` for `NULL`;
* `resource`: `res.start` when `of_address_to_resource(np, 0, &res)`
  returns zero, `none` when it returns an error;
* `rstc`: the reset control of `of_reset_control_get(np, NULL)`, `none`
  when the call returns an error pointer;
* `pclk`, `timer_clk`: `of_clk_get_by_name(np, "pclk")` and
  `of_clk_get_by_name(np, "timer")`, `none` for an error pointer;
* `clock_freq`, `clock_frequency`: the cells of the properties
  "clock-freq" and "clock-frequency", `none` when
  `of_property_read_u32` fails;
* `irq`: result of `irq_of_parse_and_map(np, 0)`. -/
structure device_node where
  name : String
  iomap : Nat
  resource : Option Nat
  rstc : Option Nat
  pclk : Option clk
  timer_clk : Option clk
  clock_freq : Option Nat
  clock_frequency : Option Nat
  irq : Nat
  deriving DecidableEq, Repr

/-- Arguments of `dw_apb_clockevent_init`, which are also the content of the
device it returns. -/
structure dw_apb_clock_event_device where
  cpu : Int
  name : String
  rating : Nat
  base : Nat
  irq : Nat
  freq : Nat
  deriving DecidableEq, Repr

/-- Arguments of `dw_apb_clocksource_init`, which are also the content of the
device it returns. -/
structure dw_apb_clocksource where
  rating : Nat
  name : String
  base : Nat
  phys : Nat
  freq : Nat
  deriving DecidableEq, Repr

/-- Calls with an effect outside the file, in the order they are made. The
only reader ever handed to `sched_clock_register` is `read_sched_clock`, and
the only timer handed to `register_current_timer_delay` is
`dw_apb_delay_timer`, whose `freq` is recorded. -/
inductive Event where
  | irq_of_parse_and_map (np : String) (irq : Nat)
  | of_iomap (np : String) (base : Nat)
  | reset_control_assert (rstc : Nat)
  | reset_control_deassert (rstc : Nat)
  | clk_prepare_enable (np : String) (id : String) (ret : Int)
  | pr_warn (msg : String)
  | pr_debug (msg : String)
  | dw_apb_clockevent_init (args : dw_apb_clock_event_device)
  | dw_apb_clockevent_register (ced : dw_apb_clock_event_device)
  | dw_apb_clocksource_init (args : dw_apb_clocksource)
  | dw_apb_clocksource_start (cs : dw_apb_clocksource)
  | dw_apb_clocksource_register (cs : dw_apb_clocksource)
  | of_node_put (np : String)
  | sched_clock_register (bits : Nat) (rate : Nat)
  | register_current_timer_delay (freq : Nat)
  deriving DecidableEq, Repr

/-- The build target and the answers of the host that do not belong to a
matched node.

* `BITS_PER_LONG`: width of `unsigned long`;
* `CONFIG_ARM`: whether the `#ifdef CONFIG_ARM` parts are compiled;
* `sptimer`: result of `of_find_matching_node(NULL, sptimer_ids)`;
* `clockevent_init`: whether `dw_apb_clockevent_init` returns a device
  (`false` for `NULL`);
* `clocksource_init`: the same for `dw_apb_clocksource_init`. -/
structure Env where
  BITS_PER_LONG : Nat
  CONFIG_ARM : Bool
  sptimer : Option device_node
  clockevent_init : Bool
  clocksource_init : Bool
  deriving DecidableEq, Repr

/-- The file-scope variables of the driver and the trace of outside calls.
`delay_timer_freq` is `dw_apb_delay_timer.freq`. -/
structure State where
  num_called : Int
  sched_io_base : Nat
  sched_rate : Nat
  delay_timer_freq : Nat
  trace : List Event
  deriving DecidableEq, Repr

/-- Outcome of a call: it returns `val` in state `s`, or it panics. -/
inductive Result (α : Type) where
  | ok (val : α) (s : State)
  | panic (msg : String) (trace : List Event)
  deriving DecidableEq, Repr

/-- What `timer_get_base_and_rate` stores through its three out-pointers
when it returns. -/
structure Resolved where
  base : Nat
  phys : Nat
  rate : Nat
  deriving DecidableEq, Repr

/-- Static storage is zero-initialised and nothing has been called yet. -/
def boot : State :=
  { num_called := 0, sched_io_base := 0, sched_rate := 0,
    delay_timer_freq := 0, trace := [] }

/-- Append one outside call to the trace. -/
def State.emit (s : State) (e : Event) : State :=
  { s with trace := s.trace ++ [e] }

/-! ## Host primitives -/

/-- Value of `clk_get_rate`, an `unsigned long`. -/
def clk_get_rate (env : Env) (c : clk) : Nat :=
  c.rate % 2 ^ env.BITS_PER_LONG

/-- Value read by `of_property_read_u32`, `none` when it returns an error. -/
def of_property_read_u32 (prop : Option Nat) : Option Nat :=
  prop.map (fun v => v % 2 ^ 32)

/-- Value of `irq_of_parse_and_map(np, 0)`, an `unsigned int`. -/
def irq_of_parse_and_map (np : device_node) : Nat :=
  np.irq % 2 ^ 32

/-- The reset pulse of `timer_get_base_and_rate`: assert then deassert when
the reset control was obtained. -/
def reset_pulse (np : device_node) (s : State) : State :=
  match np.rstc with
  | some r => (s.emit (.reset_control_assert r)).emit (.reset_control_deassert r)
  | none => s

/-- The peripheral-clock step of `timer_get_base_and_rate`: enable "pclk"
when present, warn when enabling fails. -/
def enable_pclk (np : device_node) (s : State) : State :=
  match np.pclk with
  | some p =>
    let s := s.emit (.clk_prepare_enable np.name "pclk" p.prepare_enable)
    if p.prepare_enable ≠ 0 then
      s.emit (.pr_warn ("pclk for " ++ np.name ++ " is present, but could not be activated\n"))
    else s
  | none => s

/-- The label `try_clock_freq` of `timer_get_base_and_rate`. -/
def try_clock_freq (np : device_node) (base phys : Nat) (s : State) : Result Resolved :=
  match of_property_read_u32 np.clock_freq with
  | some v => .ok { base := base, phys := phys, rate := v } s
  | none =>
    match of_property_read_u32 np.clock_frequency with
    | some v => .ok { base := base, phys := phys, rate := v } s
    | none => .panic ("No clock nor clock-frequency property for " ++ np.name) s.trace

/-- The C function `timer_get_base_and_rate`. -/
def timer_get_base_and_rate (env : Env) (np : device_node) (s : State) : Result Resolved :=
  let base := np.iomap
  let s := s.emit (.of_iomap np.name base)
  if base = 0 then .panic ("Unable to map regs for " ++ np.name) s.trace
  else
    match np.resource with
    | none => .panic ("Unable to map regs for " ++ np.name) s.trace
    | some start =>
      let phys := start % 2 ^ env.BITS_PER_LONG
      let s := reset_pulse np s
      let s := enable_pclk np s
      match np.timer_clk with
      | none => try_clock_freq np base phys s
      | some t =>
        let s := s.emit (.clk_prepare_enable np.name "timer" t.prepare_enable)
        if t.prepare_enable = 0 then
          .ok { base := base, phys := phys, rate := clk_get_rate env t % 2 ^ 32 } s
        else try_clock_freq np base phys s

/-- The C function `add_clockevent`. -/
def add_clockevent (env : Env) (event_timer : device_node) (s : State) : Result Unit :=
  let irq := irq_of_parse_and_map event_timer
  let s := s.emit (.irq_of_parse_and_map event_timer.name irq)
  if irq = 0 then .panic "No IRQ for clock event timer" s.trace
  else
    match timer_get_base_and_rate env event_timer s with
    | .panic msg t => .panic msg t
    | .ok r s =>
      let ced : dw_apb_clock_event_device :=
        { cpu := 0, name := event_timer.name, rating := 300, base := r.base,
          irq := irq, freq := r.rate }
      let s := s.emit (.dw_apb_clockevent_init ced)
      if env.clockevent_init = false then
        .panic "Unable to initialise clockevent device" s.trace
      else .ok () (s.emit (.dw_apb_clockevent_register ced))

/-- The C function `add_clocksource`. -/
def add_clocksource (env : Env) (source_timer : device_node) (s : State) : Result Unit :=
  match timer_get_base_and_rate env source_timer s with
  | .panic msg t => .panic msg t
  | .ok r s =>
    let cs : dw_apb_clocksource :=
      { rating := 300, name := source_timer.name, base := r.base, phys := r.phys,
        freq := r.rate }
    let s := s.emit (.dw_apb_clocksource_init cs)
    if env.clocksource_init = false then
      .panic "Unable to initialise clocksource device" s.trace
    else
      let s := s.emit (.dw_apb_clocksource_start cs)
      let s := s.emit (.dw_apb_clocksource_register cs)
      .ok () { s with sched_io_base := r.base + 0x04, sched_rate := r.rate }

/-- The C function `init_sched_clock`. The out-pointers of the resolver are
`&sched_io_base` and `&sched_rate`. -/
def init_sched_clock (env : Env) (s : State) : Result Unit :=
  match env.sptimer with
  | some sched_timer =>
    match timer_get_base_and_rate env sched_timer s with
    | .panic msg t => .panic msg t
    | .ok r s =>
      let s := { s with sched_io_base := r.base, sched_rate := r.rate }
      let s := s.emit (.of_node_put sched_timer.name)
      .ok () (s.emit (.sched_clock_register 32 s.sched_rate))
  | none => .ok () (s.emit (.sched_clock_register 32 s.sched_rate))

/-- The `CONFIG_ARM` block of `dw_apb_timer_init`. -/
def register_delay_timer (env : Env) (s : State) : State :=
  if env.CONFIG_ARM then
    let s := { s with delay_timer_freq := s.sched_rate }
    s.emit (.register_current_timer_delay s.delay_timer_freq)
  else s

/-- The C function `dw_apb_timer_init`. The counter `num_called` is a C
`int`; `num_called++` is plain addition as long as it has not reached
`INT_MAX`, which takes `2 ^ 31 - 1` invocations, more than the matched nodes
a device tree can hold. -/
def dw_apb_timer_init (env : Env) (timer : device_node) (s : State) : Result Int :=
  let step : Result Unit :=
    if s.num_called = 0 then
      add_clockevent env timer
        (s.emit (.pr_debug "dw_apb_timer_init: found clockevent timer\n"))
    else if s.num_called = 1 then
      match add_clocksource env timer
          (s.emit (.pr_debug "dw_apb_timer_init: found clocksource timer\n")) with
      | .panic msg t => .panic msg t
      | .ok _ s =>
        match init_sched_clock env s with
        | .panic msg t => .panic msg t
        | .ok _ s => .ok () (register_delay_timer env s)
    else .ok () s
  match step with
  | .panic msg t => .panic msg t
  | .ok _ s => .ok 0 { s with num_called := s.num_called + 1 }

/-- Modelled from the spec: the host enumerates the matching nodes and
invokes the Discovery Sequencer once per match, in hardware-description
order. A panic ends the run. -/
def timer_probe (env : Env) : List device_node → State → Result Unit
  | [], s => .ok () s
  | np :: rest, s =>
    match dw_apb_timer_init env np s with
    | .panic msg t => .panic msg t
    | .ok _ s => timer_probe env rest s

/-! ## Observations on traces and messages -/

/-- A diagnostic includes a name when the name occurs in it as a contiguous
run of characters. -/
def includes_name (msg name : String) : Prop :=
  name.data <:+: msg.data

instance (msg name : String) : Decidable (includes_name msg name) := by
  unfold includes_name; infer_instance

/-! ## Sample nodes -/

/-- Node "T0": interrupt line 5, a "timer" clock at 50 MHz. -/
def T0 : device_node :=
  { name := "T0", iomap := 0x1000, resource := some 0xFFC08000, rstc := none,
    pclk := none, timer_clk := some { prepare_enable := 0, rate := 50000000 },
    clock_freq := none, clock_frequency := none, irq := 5 }

/-- Node "T1": no "timer" clock, property "clock-freq" of 25 MHz. -/
def T1 : device_node :=
  { name := "T1", iomap := 0x2000, resource := some 0xFFC09000, rstc := none,
    pclk := none, timer_clk := none,
    clock_freq := some 25000000, clock_frequency := none, irq := 0 }

/-- A 32-bit ARM host without a dedicated scheduler-clock node on which both
device constructions succeed. -/
def arm32 : Env :=
  { BITS_PER_LONG := 32, CONFIG_ARM := true, sptimer := none,
    clockevent_init := true, clocksource_init := true }

/-- Node "T64": a "timer" clock whose rate needs 33 bits, and a "clock-freq"
property. -/
def T64 : device_node :=
  { name := "T64", iomap := 0x3000, resource := some 0xFFC0A000, rstc := none,
    pclk := none, timer_clk := some { prepare_enable := 0, rate := 4294967301 },
    clock_freq := some 7, clock_frequency := none, irq := 0 }

/-- A 64-bit host that is not ARM, otherwise as `arm32`. -/
def lp64 : Env :=
  { BITS_PER_LONG := 64, CONFIG_ARM := false, sptimer := none,
    clockevent_init := true, clocksource_init := true }

/-- The trace carried by an outcome, whether it returned or panicked. -/
def Result.trace {α : Type} : Result α → List Event
  | .ok _ s => s.trace
  | .panic _ t => t

/-- Relocation of an outcome computed from `boot` behind a state `s`: the
events follow the trace of `s`, the variables are those of `s`. -/
def Result.after {α : Type} (s : State) : Result α → Result α
  | .ok v b => .ok v { s with trace := s.trace ++ b.trace }
  | .panic msg t => .panic msg (s.trace ++ t)

/-- The state in which the label `try_clock_freq` is reached when the
"timer" clock is absent or fails to enable. -/
def at_try_clock_freq (np : device_node) (s : State) : State :=
  let s := enable_pclk np (reset_pulse np (s.emit (.of_iomap np.name np.iomap)))
  match np.timer_clk with
  | none => s
  | some t => s.emit (.clk_prepare_enable np.name "timer" t.prepare_enable)

/-- The outside calls the resolver makes for a node, in order. -/
def resolver_events (env : Env) (np : device_node) : List Event :=
  (timer_get_base_and_rate env np boot).trace

/-- A state after more outside calls: the variables are kept. -/
def State.extend (s : State) (evs : List Event) : State :=
  { s with trace := s.trace ++ evs }

/-- A dedicated scheduler-clock node: no "timer" clock, property
"clock-frequency" of 32768 Hz. -/
def RTC : device_node :=
  { name := "rtc", iomap := 0x5000, resource := some 0xFFC0C000, rstc := some 1,
    pclk := none, timer_clk := none,
    clock_freq := none, clock_frequency := some 32768, irq := 0 }

/-- The host `arm32` with the dedicated scheduler-clock node `RTC`. -/
def arm32_rtc : Env :=
  { arm32 with sptimer := some RTC }

/-- The outside calls that the resolver can make. -/
def Event.is_resolver_call : Event → Bool
  | .of_iomap _ _ => true
  | .reset_control_assert _ => true
  | .reset_control_deassert _ => true
  | .clk_prepare_enable _ _ _ => true
  | .pr_warn _ => true
  | _ => false

/-- The outside calls that hand a device, a reader or a delay timer to the
host. -/
def Event.is_registration : Event → Bool
  | .dw_apb_clockevent_register _ => true
  | .dw_apb_clocksource_register _ => true
  | .sched_clock_register _ _ => true
  | .register_current_timer_delay _ => true
  | _ => false

/-- The reset pulses and clock enables. -/
def Event.is_reset_or_enable : Event → Bool
  | .reset_control_assert _ => true
  | .reset_control_deassert _ => true
  | .clk_prepare_enable _ _ _ => true
  | _ => false

/-- The resolver reads nothing of the state and only appends to its trace. -/
theorem timer_get_base_and_rate_after (env : Env) (np : device_node) (s : State) :
    timer_get_base_and_rate env np s = (timer_get_base_and_rate env np boot).after s := by
  obtain ⟨name, iomap, resource, rstc, pclk, timer_clk, cf, cfy, irq⟩ := np
  cases resource <;> cases rstc <;> cases pclk <;> cases timer_clk <;> cases cf <;> cases cfy <;>
    simp only [timer_get_base_and_rate, try_clock_freq, reset_pulse, enable_pclk,
      of_property_read_u32, State.emit, boot, Result.after, Option.map] <;>
    split_ifs <;> simp [Result.after]

/-- With the registers mapped and the "timer" clock enabled, the resolver
returns the rate of that clock as a `u32`. -/
theorem resolver_timer_clk (env : Env) (np : device_node) (s : State) (start : Nat) (t : clk)
    (hbase : np.iomap ≠ 0) (hres : np.resource = some start)
    (ht : np.timer_clk = some t) (hen : t.prepare_enable = 0) :
    timer_get_base_and_rate env np s =
      .ok ⟨np.iomap, start % 2 ^ env.BITS_PER_LONG, clk_get_rate env t % 2 ^ 32⟩
        (at_try_clock_freq np s) := by
  simp only [timer_get_base_and_rate, at_try_clock_freq, hres, ht, hen, hbase, if_false, if_true]

/-- With the registers mapped and no enabled "timer" clock, the resolver
continues at the label `try_clock_freq`. -/
theorem resolver_falls_through (env : Env) (np : device_node) (s : State) (start : Nat)
    (hbase : np.iomap ≠ 0) (hres : np.resource = some start)
    (hclk : np.timer_clk = none ∨ ∃ t, np.timer_clk = some t ∧ t.prepare_enable ≠ 0) :
    timer_get_base_and_rate env np s =
      try_clock_freq np np.iomap (start % 2 ^ env.BITS_PER_LONG) (at_try_clock_freq np s) := by
  rcases hclk with hnone | ⟨t, ht, hen⟩
  · simp only [timer_get_base_and_rate, at_try_clock_freq, hres, hnone, hbase, if_false]
  · simp only [timer_get_base_and_rate, at_try_clock_freq, hres, ht, hen, hbase, if_false]

/-- C2, refuted as stated: on a 64-bit host the node "T64" maps its
registers and has an enableable "timer" clock whose rate is 4294967301, yet
the resolver produces the rate 5, which is not the rate of the clock. -/
theorem resolved_rate_differs_from_clock_rate :
    T64.iomap ≠ 0 ∧ T64.resource = some 0xFFC0A000 ∧
    T64.timer_clk = some { prepare_enable := 0, rate := 4294967301 } ∧
    clk_get_rate lp64 { prepare_enable := 0, rate := 4294967301 } = 4294967301 ∧
    ∃ r s, timer_get_base_and_rate lp64 T64 boot = .ok r s ∧ r.rate = 5 ∧
      r.rate ≠ clk_get_rate lp64 { prepare_enable := 0, rate := 4294967301 } := by
  refine ⟨by decide, rfl, rfl, by decide, ?_⟩
  exact ⟨_, _, resolver_timer_clk lp64 T64 boot 0xFFC0A000 _ (by decide) rfl rfl rfl,
    by decide, by decide⟩

/-- C2 (amended): for every node whose registers map, the resolver returns
and its rate is the first success in the fixed order: (a) the rate of the
clock "timer", reduced modulo 2 ^ 32 (hence that rate itself whenever it is
below 2 ^ 32, as it always is where `unsigned long` has 32 bits), when the
clock is obtainable and enabling it succeeds, whatever the properties hold; else (b) the value of "clock-freq" when it is
readable; else (c) the value of "clock-frequency" when it is readable. -/
theorem resolved_rate_first_success (env : Env) (np : device_node) (s : State) (start : Nat)
    (hbase : np.iomap ≠ 0) (hres : np.resource = some start) :
    (∀ t, np.timer_clk = some t → t.prepare_enable = 0 →
        ∃ r s', timer_get_base_and_rate env np s = .ok r s' ∧
          r.rate = clk_get_rate env t % 2 ^ 32 ∧
          (clk_get_rate env t < 2 ^ 32 → r.rate = clk_get_rate env t) ∧
          (env.BITS_PER_LONG ≤ 32 → r.rate = clk_get_rate env t)) ∧
    ((np.timer_clk = none ∨ ∃ t, np.timer_clk = some t ∧ t.prepare_enable ≠ 0) →
        (∀ v, of_property_read_u32 np.clock_freq = some v →
          ∃ r s', timer_get_base_and_rate env np s = .ok r s' ∧ r.rate = v) ∧
        (of_property_read_u32 np.clock_freq = none →
          ∀ v, of_property_read_u32 np.clock_frequency = some v →
            ∃ r s', timer_get_base_and_rate env np s = .ok r s' ∧ r.rate = v)) := by
  refine ⟨?_, ?_⟩
  · intro t ht hen
    refine ⟨_, _, resolver_timer_clk env np s start t hbase hres ht hen, rfl,
      fun hlt => Nat.mod_eq_of_lt hlt, fun hL => Nat.mod_eq_of_lt ?_⟩
    calc clk_get_rate env t < 2 ^ env.BITS_PER_LONG := Nat.mod_lt _ (by positivity)
      _ ≤ 2 ^ 32 := Nat.pow_le_pow_right (by norm_num) hL
  · intro hclk
    rw [resolver_falls_through env np s start hbase hres hclk]
    refine ⟨?_, ?_⟩
    · intro v hv
      exact ⟨⟨np.iomap, start % 2 ^ env.BITS_PER_LONG, v⟩, at_try_clock_freq np s,
        by simp only [try_clock_freq, hv], rfl⟩
    · intro hcf v hv
      exact ⟨⟨np.iomap, start % 2 ^ env.BITS_PER_LONG, v⟩, at_try_clock_freq np s,
        by simp only [try_clock_freq, hcf, hv], rfl⟩

/-- Witness of C2 (amended) on the node "T0" of a 32-bit ARM host. -/
theorem resolved_rate_first_success_T0 :
    T0.iomap ≠ 0 ∧ T0.resource = some 0xFFC08000 ∧
    ((∀ t, T0.timer_clk = some t → t.prepare_enable = 0 →
        ∃ r s', timer_get_base_and_rate arm32 T0 boot = .ok r s' ∧
          r.rate = clk_get_rate arm32 t % 2 ^ 32 ∧
          (clk_get_rate arm32 t < 2 ^ 32 → r.rate = clk_get_rate arm32 t) ∧
          (arm32.BITS_PER_LONG ≤ 32 → r.rate = clk_get_rate arm32 t)) ∧
    ((T0.timer_clk = none ∨ ∃ t, T0.timer_clk = some t ∧ t.prepare_enable ≠ 0) →
        (∀ v, of_property_read_u32 T0.clock_freq = some v →
          ∃ r s', timer_get_base_and_rate arm32 T0 boot = .ok r s' ∧ r.rate = v) ∧
        (of_property_read_u32 T0.clock_freq = none →
          ∀ v, of_property_read_u32 T0.clock_frequency = some v →
            ∃ r s', timer_get_base_and_rate arm32 T0 boot = .ok r s' ∧ r.rate = v))) :=
  ⟨by decide, rfl, resolved_rate_first_success arm32 T0 boot 0xFFC08000 (by decide) rfl⟩

/-- C3: for every node whose register region maps and whose physical address
resolves, the resolver panics if and only if the "timer" clock is absent or
fails to enable, "clock-freq" is unreadable and "clock-frequency" is
unreadable; the panic is then the one of the frequency resolution. -/
theorem frequency_panic_iff (env : Env) (np : device_node) (s : State) (start : Nat)
    (hbase : np.iomap ≠ 0) (hres : np.resource = some start) :
    ((∃ msg t, timer_get_base_and_rate env np s = .panic msg t) ↔
      ((np.timer_clk = none ∨ ∃ t, np.timer_clk = some t ∧ t.prepare_enable ≠ 0) ∧
        of_property_read_u32 np.clock_freq = none ∧
        of_property_read_u32 np.clock_frequency = none)) ∧
    (∀ msg t, timer_get_base_and_rate env np s = .panic msg t →
      msg = "No clock nor clock-frequency property for " ++ np.name) := by
  by_cases hclk : np.timer_clk = none ∨ ∃ t, np.timer_clk = some t ∧ t.prepare_enable ≠ 0
  · rw [resolver_falls_through env np s start hbase hres hclk]
    cases hcf : of_property_read_u32 np.clock_freq with
    | some v => simp [try_clock_freq, hcf]
    | none =>
      cases hcfy : of_property_read_u32 np.clock_frequency with
      | some v => simp [try_clock_freq, hcf, hcfy]
      | none =>
        simp only [try_clock_freq, hcf, hcfy, hclk, and_self, iff_true]
        exact ⟨⟨_, _, rfl⟩, fun msg t h => by injection h with h1 h2; exact h1.symm⟩
  · have hen : ∃ t, np.timer_clk = some t ∧ t.prepare_enable = 0 := by
      cases ht : np.timer_clk with
      | none => exact absurd (Or.inl ht) hclk
      | some t =>
        refine ⟨t, rfl, ?_⟩
        by_contra hne
        exact hclk (Or.inr ⟨t, ht, hne⟩)
    obtain ⟨t, ht, h0⟩ := hen
    rw [resolver_timer_clk env np s start t hbase hres ht h0]
    simp [hclk]

/-- Witness of C3 on the node "T1" without its "clock-freq" property: no
source of frequency is left and the resolver panics. -/
theorem frequency_panic_iff_T1 :
    T1.iomap ≠ 0 ∧ T1.resource = some 0xFFC09000 ∧
    (((∃ msg t, timer_get_base_and_rate arm32 { T1 with clock_freq := none } boot
          = .panic msg t) ↔
      ((T1.timer_clk = none ∨ ∃ t, T1.timer_clk = some t ∧ t.prepare_enable ≠ 0) ∧
        of_property_read_u32 none = none ∧
        of_property_read_u32 T1.clock_frequency = none)) ∧
    (∀ msg t, timer_get_base_and_rate arm32 { T1 with clock_freq := none } boot
          = .panic msg t →
      msg = "No clock nor clock-frequency property for " ++ T1.name)) :=
  ⟨by decide, rfl,
    frequency_panic_iff arm32 { T1 with clock_freq := none } boot 0xFFC09000 (by decide) rfl⟩

/-- C7: for every node whose register region maps, whose physical address
resolves and for which one source of frequency succeeds, the resolver
returns, and the base, physical address and rate it returns are the same
whatever the reset control and the clock "pclk" are (absent, present,
failing to enable). -/
theorem resolver_ignores_reset_and_pclk (env : Env) (np : device_node) (s : State) (start : Nat)
    (hbase : np.iomap ≠ 0) (hres : np.resource = some start)
    (hfreq : (∃ t, np.timer_clk = some t ∧ t.prepare_enable = 0) ∨
      (of_property_read_u32 np.clock_freq).isSome = true ∨
      (of_property_read_u32 np.clock_frequency).isSome = true) :
    ∃ r : Resolved, r.base = np.iomap ∧ r.phys = start % 2 ^ env.BITS_PER_LONG ∧
      ∀ (rstc : Option Nat) (pclk : Option clk), ∃ s',
        timer_get_base_and_rate env { np with rstc := rstc, pclk := pclk } s = .ok r s' := by
  by_cases hen : ∃ t, np.timer_clk = some t ∧ t.prepare_enable = 0
  · obtain ⟨t, ht, h0⟩ := hen
    exact ⟨⟨np.iomap, start % 2 ^ env.BITS_PER_LONG, clk_get_rate env t % 2 ^ 32⟩, rfl, rfl,
      fun rstc pclk => ⟨_,
        resolver_timer_clk env { np with rstc := rstc, pclk := pclk } s start t hbase hres ht h0⟩⟩
  · have hclk : np.timer_clk = none ∨ ∃ t, np.timer_clk = some t ∧ t.prepare_enable ≠ 0 := by
      cases ht : np.timer_clk with
      | none => exact Or.inl rfl
      | some t => exact Or.inr ⟨t, rfl, fun h0 => hen ⟨t, ht, h0⟩⟩
    have hprop : (of_property_read_u32 np.clock_freq).isSome = true ∨
        (of_property_read_u32 np.clock_frequency).isSome = true := by
      rcases hfreq with h | h
      · exact absurd h hen
      · exact h
    cases hcf : of_property_read_u32 np.clock_freq with
    | some v =>
      refine ⟨⟨np.iomap, start % 2 ^ env.BITS_PER_LONG, v⟩, rfl, rfl, fun rstc pclk =>
        ⟨at_try_clock_freq { np with rstc := rstc, pclk := pclk } s, ?_⟩⟩
      rw [resolver_falls_through env { np with rstc := rstc, pclk := pclk } s start hbase hres hclk]
      simp only [try_clock_freq, hcf]
    | none =>
      cases hcfy : of_property_read_u32 np.clock_frequency with
      | some v =>
        refine ⟨⟨np.iomap, start % 2 ^ env.BITS_PER_LONG, v⟩, rfl, rfl, fun rstc pclk =>
        ⟨at_try_clock_freq { np with rstc := rstc, pclk := pclk } s, ?_⟩⟩
        rw [resolver_falls_through env { np with rstc := rstc, pclk := pclk } s start hbase hres
          hclk]
        simp only [try_clock_freq, hcf, hcfy]
      | none => simp [hcf, hcfy] at hprop

/-- Witness of C7 on the node "T1": its "clock-freq" property resolves the
frequency. -/
theorem resolver_ignores_reset_and_pclk_T1 :
    T1.iomap ≠ 0 ∧ T1.resource = some 0xFFC09000 ∧
    ((∃ t, T1.timer_clk = some t ∧ t.prepare_enable = 0) ∨
      (of_property_read_u32 T1.clock_freq).isSome = true ∨
      (of_property_read_u32 T1.clock_frequency).isSome = true) ∧
    ∃ r : Resolved, r.base = T1.iomap ∧ r.phys = 0xFFC09000 % 2 ^ arm32.BITS_PER_LONG ∧
      ∀ (rstc : Option Nat) (pclk : Option clk), ∃ s',
        timer_get_base_and_rate arm32 { T1 with rstc := rstc, pclk := pclk } boot = .ok r s' :=
  ⟨by decide, rfl, Or.inr (Or.inl rfl),
    resolver_ignores_reset_and_pclk arm32 T1 boot 0xFFC09000 (by decide) rfl
      (Or.inr (Or.inl rfl))⟩

/-- A resolution that returns somewhere returns the same values everywhere,
after the same outside calls. -/
theorem resolver_ok_anywhere {env : Env} {np : device_node} {s0 s1 : State} {r : Resolved}
    (h : timer_get_base_and_rate env np s0 = .ok r s1) (s : State) :
    timer_get_base_and_rate env np s = .ok r (s.extend (resolver_events env np)) := by
  rw [timer_get_base_and_rate_after] at h
  rw [timer_get_base_and_rate_after env np s, resolver_events]
  cases hb : timer_get_base_and_rate env np boot with
  | ok v b =>
    rw [hb] at h
    simp only [Result.after, Result.ok.injEq] at h
    simp only [Result.after, Result.trace, State.extend, h.1]
  | panic msg t =>
    rw [hb] at h
    simp [Result.after] at h

/-- A resolution that panics somewhere panics everywhere, with the same
message and after the same outside calls. -/
theorem resolver_panic_anywhere {env : Env} {np : device_node} {s0 : State} {msg : String}
    {t : List Event} (h : timer_get_base_and_rate env np s0 = .panic msg t) (s : State) :
    timer_get_base_and_rate env np s = .panic msg (s.trace ++ resolver_events env np) := by
  rw [timer_get_base_and_rate_after] at h
  rw [timer_get_base_and_rate_after env np s, resolver_events]
  cases hb : timer_get_base_and_rate env np boot with
  | ok v b =>
    rw [hb] at h
    simp [Result.after] at h
  | panic m t' =>
    rw [hb] at h
    simp only [Result.after, Result.panic.injEq] at h
    simp only [Result.after, Result.trace, h.1]

/-- A resolution that returns has mapped the registers and read the physical
address; the base it returns is the mapping itself. -/
theorem resolver_ok_mapped {env : Env} {np : device_node} {s0 s1 : State} {r : Resolved}
    (h : timer_get_base_and_rate env np s0 = .ok r s1) :
    np.iomap ≠ 0 ∧ r.base = np.iomap ∧
      ∃ start, np.resource = some start ∧ r.phys = start % 2 ^ env.BITS_PER_LONG := by
  obtain ⟨name, iomap, resource, rstc, pclk, timer_clk, cf, cfy, irq⟩ := np
  cases resource <;> cases timer_clk <;> cases cf <;> cases cfy <;>
    simp only [timer_get_base_and_rate, try_clock_freq, of_property_read_u32, Option.map] at h <;>
    split_ifs at h <;>
    first
    | (simp at h; done)
    | (simp only [Result.ok.injEq] at h
       obtain ⟨h1, _⟩ := h
       subst h1
       simp_all)

/-! ## The installers and the sequencer -/

/-- The source-timer installer on a node that resolves, when the device is
constructed. -/
theorem add_clocksource_ok {env : Env} {np : device_node} {s0 s1 : State} {r : Resolved}
    (h : timer_get_base_and_rate env np s0 = .ok r s1) (hcs : env.clocksource_init = true)
    (s : State) :
    add_clocksource env np s = .ok ()
      { s.extend (resolver_events env np ++
          [.dw_apb_clocksource_init ⟨300, np.name, r.base, r.phys, r.rate⟩,
           .dw_apb_clocksource_start ⟨300, np.name, r.base, r.phys, r.rate⟩,
           .dw_apb_clocksource_register ⟨300, np.name, r.base, r.phys, r.rate⟩]) with
        sched_io_base := r.base + 4, sched_rate := r.rate } := by
  simp only [add_clocksource, resolver_ok_anywhere h, hcs]
  simp [State.emit, State.extend]

/-- The event-timer installer on a node with an interrupt line that
resolves, when the device is constructed. -/
theorem add_clockevent_ok {env : Env} {np : device_node} {s0 s1 : State} {r : Resolved}
    (hirq : irq_of_parse_and_map np ≠ 0)
    (h : timer_get_base_and_rate env np s0 = .ok r s1) (hce : env.clockevent_init = true)
    (s : State) :
    add_clockevent env np s = .ok ()
      (s.extend ([.irq_of_parse_and_map np.name (irq_of_parse_and_map np)] ++
        resolver_events env np ++
          [.dw_apb_clockevent_init ⟨0, np.name, 300, r.base, irq_of_parse_and_map np, r.rate⟩,
           .dw_apb_clockevent_register
              ⟨0, np.name, 300, r.base, irq_of_parse_and_map np, r.rate⟩])) := by
  simp only [add_clockevent, hirq, if_false, resolver_ok_anywhere h, hce]
  simp [State.emit, State.extend]

/-- The fallback registrar without a dedicated node: the variables are kept
and the reader is registered. -/
theorem init_sched_clock_none {env : Env} (hsp : env.sptimer = none) (s : State) :
    init_sched_clock env s = .ok () (s.extend [.sched_clock_register 32 s.sched_rate]) := by
  simp [init_sched_clock, hsp, State.emit, State.extend]

/-- The fallback registrar with a dedicated node that resolves: both
variables are overwritten and the reader is registered. -/
theorem init_sched_clock_some {env : Env} {sp : device_node} {s0 s1 : State} {r : Resolved}
    (hsp : env.sptimer = some sp) (h : timer_get_base_and_rate env sp s0 = .ok r s1)
    (s : State) :
    init_sched_clock env s = .ok ()
      { s.extend (resolver_events env sp ++
          [.of_node_put sp.name, .sched_clock_register 32 r.rate]) with
        sched_io_base := r.base, sched_rate := r.rate } := by
  simp only [init_sched_clock, hsp, resolver_ok_anywhere h]
  simp [State.emit, State.extend]

/-- The first invocation of the sequencer on a node with an interrupt line
that resolves, when the device is constructed. -/
theorem dw_apb_timer_init_first {env : Env} {np : device_node} {s0 s1 : State} {r : Resolved}
    (hirq : irq_of_parse_and_map np ≠ 0)
    (h : timer_get_base_and_rate env np s0 = .ok r s1) (hce : env.clockevent_init = true)
    (s : State) (hn : s.num_called = 0) :
    dw_apb_timer_init env np s = .ok 0
      { s.extend ([.pr_debug "dw_apb_timer_init: found clockevent timer\n",
            .irq_of_parse_and_map np.name (irq_of_parse_and_map np)] ++
          resolver_events env np ++
          [.dw_apb_clockevent_init ⟨0, np.name, 300, r.base, irq_of_parse_and_map np, r.rate⟩,
           .dw_apb_clockevent_register
              ⟨0, np.name, 300, r.base, irq_of_parse_and_map np, r.rate⟩]) with
        num_called := 1 } := by
  simp only [dw_apb_timer_init, hn, if_true, add_clockevent_ok hirq h hce]
  simp [State.emit, State.extend, hn]

/-- The second invocation of the sequencer on a node that resolves, when the
device is constructed and no dedicated scheduler-clock node exists. -/
theorem dw_apb_timer_init_second {env : Env} {np : device_node} {s0 s1 : State} {r : Resolved}
    (h : timer_get_base_and_rate env np s0 = .ok r s1) (hcs : env.clocksource_init = true)
    (hsp : env.sptimer = none) (s : State) (hn : s.num_called = 1) :
    dw_apb_timer_init env np s = .ok 0
      { num_called := 2, sched_io_base := r.base + 4, sched_rate := r.rate,
        delay_timer_freq := if env.CONFIG_ARM = true then r.rate else s.delay_timer_freq,
        trace := s.trace ++ ([.pr_debug "dw_apb_timer_init: found clocksource timer\n"] ++
          resolver_events env np ++
          [.dw_apb_clocksource_init ⟨300, np.name, r.base, r.phys, r.rate⟩,
           .dw_apb_clocksource_start ⟨300, np.name, r.base, r.phys, r.rate⟩,
           .dw_apb_clocksource_register ⟨300, np.name, r.base, r.phys, r.rate⟩] ++
          [.sched_clock_register 32 r.rate] ++
          if env.CONFIG_ARM = true then [.register_current_timer_delay r.rate] else []) } := by
  have h01 : (1 : Int) ≠ 0 := by decide
  simp only [dw_apb_timer_init, hn, h01, if_true, if_false, add_clocksource_ok h hcs,
    init_sched_clock_none hsp, register_delay_timer]
  cases env.CONFIG_ARM <;> simp [State.emit, State.extend, hn]

/-- The resolver of a node either returns the same values in every state or
panics with the same message in every state. -/
theorem resolver_cases (env : Env) (np : device_node) :
    (∃ r, ∀ s, timer_get_base_and_rate env np s = .ok r (s.extend (resolver_events env np))) ∨
    (∃ msg, ∀ s, timer_get_base_and_rate env np s =
      .panic msg (s.trace ++ resolver_events env np)) := by
  cases hb : timer_get_base_and_rate env np boot with
  | ok r b => exact Or.inl ⟨r, fun s => resolver_ok_anywhere hb s⟩
  | panic msg t => exact Or.inr ⟨msg, fun s => resolver_panic_anywhere hb s⟩

/-- The reset pulse only appends resolver calls. -/
theorem reset_pulse_extends (np : device_node) (s : State) :
    ∃ evs, reset_pulse np s = s.extend evs ∧ ∀ e ∈ evs, e.is_resolver_call = true := by
  unfold reset_pulse
  cases np.rstc with
  | none => exact ⟨[], by simp [State.extend], by simp⟩
  | some r =>
    exact ⟨[.reset_control_assert r, .reset_control_deassert r],
      by simp [State.extend, State.emit], by simp [Event.is_resolver_call]⟩

/-- The peripheral-clock step only appends resolver calls. -/
theorem enable_pclk_extends (np : device_node) (s : State) :
    ∃ evs, enable_pclk np s = s.extend evs ∧ ∀ e ∈ evs, e.is_resolver_call = true := by
  unfold enable_pclk
  cases np.pclk with
  | none => exact ⟨[], by simp [State.extend], by simp⟩
  | some p =>
    by_cases hp : p.prepare_enable = 0
    · exact ⟨[.clk_prepare_enable np.name "pclk" p.prepare_enable],
        by simp [State.extend, State.emit, hp], by simp [Event.is_resolver_call]⟩
    · exact ⟨[.clk_prepare_enable np.name "pclk" p.prepare_enable,
          .pr_warn ("pclk for " ++ np.name ++ " is present, but could not be activated\n")],
        by simp [State.extend, State.emit, hp], by simp [Event.is_resolver_call]⟩

/-- Reading the frequency properties makes no outside call. -/
theorem try_clock_freq_trace (np : device_node) (b p : Nat) (s : State) :
    (try_clock_freq np b p s).trace = s.trace := by
  unfold try_clock_freq
  cases of_property_read_u32 np.clock_freq <;> cases of_property_read_u32 np.clock_frequency <;>
    simp [Result.trace]

/-- The resolver only appends resolver calls, whether it returns or panics. -/
theorem resolver_trace_kind (env : Env) (np : device_node) (s : State) :
    ∃ evs, (timer_get_base_and_rate env np s).trace = s.trace ++ evs ∧
      ∀ e ∈ evs, e.is_resolver_call = true := by
  obtain ⟨e1, h1, k1⟩ := reset_pulse_extends np (s.emit (.of_iomap np.name np.iomap))
  obtain ⟨e2, h2, k2⟩ := enable_pclk_extends np ((s.emit (.of_iomap np.name np.iomap)).extend e1)
  unfold timer_get_base_and_rate
  simp only
  by_cases hb : np.iomap = 0
  · exact ⟨[.of_iomap np.name np.iomap], by simp [hb, Result.trace, State.emit],
      by simp [Event.is_resolver_call]⟩
  · cases hres : np.resource with
    | none =>
      exact ⟨[.of_iomap np.name np.iomap], by simp [hb, Result.trace, State.emit],
        by simp [Event.is_resolver_call]⟩
    | some start =>
      simp only [hb, if_false, h1, h2]
      cases ht : np.timer_clk with
      | none =>
        refine ⟨[.of_iomap np.name np.iomap] ++ e1 ++ e2, ?_, ?_⟩
        · simp only
          rw [try_clock_freq_trace]
          simp [State.extend, State.emit]
        · intro e he
          simp only [List.mem_append, List.mem_singleton] at he
          rcases he with (rfl | he) | he
          · rfl
          · exact k1 e he
          · exact k2 e he
      | some t =>
        refine ⟨[.of_iomap np.name np.iomap] ++ e1 ++ e2 ++
          [.clk_prepare_enable np.name "timer" t.prepare_enable], ?_, ?_⟩
        · simp only
          split_ifs
          · simp [Result.trace, State.extend, State.emit]
          · rw [try_clock_freq_trace]
            simp [State.extend, State.emit]
        · intro e he
          simp only [List.mem_append, List.mem_singleton] at he
          rcases he with ((rfl | he) | he) | rfl
          · rfl
          · exact k1 e he
          · exact k2 e he
          · rfl

/-- Every outside call of the resolver is a mapping, a reset, a clock enable
or a warning. -/
theorem resolver_events_kind (env : Env) (np : device_node) :
    ∀ e ∈ resolver_events env np, e.is_resolver_call = true := by
  obtain ⟨evs, h, k⟩ := resolver_trace_kind env np boot
  have : resolver_events env np = evs := by
    rw [resolver_events, h]; simp [boot]
  rw [this]; exact k

/-- The second invocation of the sequencer on a node that resolves, when the
device is constructed and the dedicated scheduler-clock node resolves. -/
theorem dw_apb_timer_init_second_some {env : Env} {np sp : device_node} {s0 s1 s0' s1' : State}
    {r rsp : Resolved}
    (h : timer_get_base_and_rate env np s0 = .ok r s1) (hcs : env.clocksource_init = true)
    (hsp : env.sptimer = some sp) (h' : timer_get_base_and_rate env sp s0' = .ok rsp s1')
    (s : State) (hn : s.num_called = 1) :
    dw_apb_timer_init env np s = .ok 0
      { num_called := 2, sched_io_base := rsp.base, sched_rate := rsp.rate,
        delay_timer_freq := if env.CONFIG_ARM = true then rsp.rate else s.delay_timer_freq,
        trace := s.trace ++ ([.pr_debug "dw_apb_timer_init: found clocksource timer\n"] ++
          resolver_events env np ++
          [.dw_apb_clocksource_init ⟨300, np.name, r.base, r.phys, r.rate⟩,
           .dw_apb_clocksource_start ⟨300, np.name, r.base, r.phys, r.rate⟩,
           .dw_apb_clocksource_register ⟨300, np.name, r.base, r.phys, r.rate⟩] ++
          resolver_events env sp ++
          [.of_node_put sp.name, .sched_clock_register 32 rsp.rate] ++
          if env.CONFIG_ARM = true then [.register_current_timer_delay rsp.rate] else []) } := by
  have h01 : (1 : Int) ≠ 0 := by decide
  simp only [dw_apb_timer_init, hn, h01, if_true, if_false, add_clocksource_ok h hcs,
    init_sched_clock_some hsp h', register_delay_timer]
  cases env.CONFIG_ARM <;> simp [State.emit, State.extend, hn]

/-- A second invocation that returns had a node that resolves, a constructed
device and, if a dedicated scheduler-clock node exists, one that resolves. -/
theorem dw_apb_timer_init_second_inv {env : Env} {np : device_node} {s s' : State} {v : Int}
    (hn : s.num_called = 1) (h : dw_apb_timer_init env np s = .ok v s') :
    env.clocksource_init = true ∧
      (∃ r s1, timer_get_base_and_rate env np boot = .ok r s1) ∧
      (env.sptimer = none ∨
        ∃ sp rsp s1, env.sptimer = some sp ∧ timer_get_base_and_rate env sp boot = .ok rsp s1) := by
  have h01 : (1 : Int) ≠ 0 := by decide
  rcases resolver_cases env np with ⟨r, hr⟩ | ⟨msg, hp⟩
  · cases hcs : env.clocksource_init with
    | false => simp [dw_apb_timer_init, hn, add_clocksource, hr, hcs] at h
    | true =>
      refine ⟨rfl, ⟨r, _, hr boot⟩, ?_⟩
      cases hsp : env.sptimer with
      | none => exact Or.inl rfl
      | some sp =>
        rcases resolver_cases env sp with ⟨rsp, hrs⟩ | ⟨msg, hps⟩
        · exact Or.inr ⟨sp, rsp, _, rfl, hrs boot⟩
        · simp [dw_apb_timer_init, hn, add_clocksource, hr, hcs, init_sched_clock, hsp, hps] at h
  · simp [dw_apb_timer_init, hn, add_clocksource, hp] at h

/-- C5: when a dedicated scheduler-clock node matches and resolves, the
fallback registrar returns with the scheduler-clock base equal to the base
resolved for that node, which is its own register mapping without any
offset, and the scheduler-clock rate equal to the rate resolved for that
node; the state left by the second invocation of the sequencer has these two
values for every source-timer node, so it is the same for any two of them. -/
theorem dedicated_fallback_overwrites (env : Env) (sp : device_node) (s0 s1 : State)
    (rsp : Resolved) (hsp : env.sptimer = some sp)
    (hr : timer_get_base_and_rate env sp s0 = .ok rsp s1) :
    rsp.base = sp.iomap ∧
    (∀ s, ∃ s', init_sched_clock env s = .ok () s' ∧
      s'.sched_io_base = rsp.base ∧ s'.sched_rate = rsp.rate) ∧
    (∀ (np : device_node) (r : Resolved) (t0 t1 s : State),
      timer_get_base_and_rate env np t0 = .ok r t1 → env.clocksource_init = true →
      s.num_called = 1 →
      ∃ s', dw_apb_timer_init env np s = .ok 0 s' ∧
        s'.sched_io_base = rsp.base ∧ s'.sched_rate = rsp.rate) ∧
    (∀ (np np' : device_node) (s a b : State) (va vb : Int), s.num_called = 1 →
      dw_apb_timer_init env np s = .ok va a → dw_apb_timer_init env np' s = .ok vb b →
      a.sched_io_base = b.sched_io_base ∧ a.sched_rate = b.sched_rate) := by
  refine ⟨(resolver_ok_mapped hr).2.1, fun s => ⟨_, init_sched_clock_some hsp hr s, rfl, rfl⟩,
    fun np r t0 t1 s hnp hcs hn =>
      ⟨_, dw_apb_timer_init_second_some hnp hcs hsp hr s hn, rfl, rfl⟩, ?_⟩
  intro np np' s a b va vb hn ha hb
  obtain ⟨hcs, ⟨r, t1, hnp⟩, -⟩ := dw_apb_timer_init_second_inv hn ha
  obtain ⟨-, ⟨r', t1', hnp'⟩, -⟩ := dw_apb_timer_init_second_inv hn hb
  rw [dw_apb_timer_init_second_some hnp hcs hsp hr s hn] at ha
  rw [dw_apb_timer_init_second_some hnp' hcs hsp hr s hn] at hb
  simp only [Result.ok.injEq] at ha hb
  rw [← ha.2, ← hb.2]
  exact ⟨rfl, rfl⟩

/-- Witness of C5: the host with the dedicated node "rtc", whose rate comes
from "clock-frequency". -/
theorem dedicated_fallback_overwrites_rtc :
    ∃ rsp s1, arm32_rtc.sptimer = some RTC ∧
      timer_get_base_and_rate arm32_rtc RTC boot = .ok rsp s1 ∧
      rsp.base = 0x5000 ∧ rsp.rate = 32768 ∧
      (rsp.base = RTC.iomap ∧
      (∀ s, ∃ s', init_sched_clock arm32_rtc s = .ok () s' ∧
        s'.sched_io_base = rsp.base ∧ s'.sched_rate = rsp.rate) ∧
      (∀ (np : device_node) (r : Resolved) (t0 t1 s : State),
        timer_get_base_and_rate arm32_rtc np t0 = .ok r t1 →
        arm32_rtc.clocksource_init = true → s.num_called = 1 →
        ∃ s', dw_apb_timer_init arm32_rtc np s = .ok 0 s' ∧
          s'.sched_io_base = rsp.base ∧ s'.sched_rate = rsp.rate) ∧
      (∀ (np np' : device_node) (s a b : State) (va vb : Int), s.num_called = 1 →
        dw_apb_timer_init arm32_rtc np s = .ok va a →
        dw_apb_timer_init arm32_rtc np' s = .ok vb b →
        a.sched_io_base = b.sched_io_base ∧ a.sched_rate = b.sched_rate)) :=
  ⟨_, _, rfl, rfl, rfl, rfl, dedicated_fallback_overwrites arm32_rtc RTC boot _ _ rfl rfl⟩

/-- The second invocation on a node that resolves, when the device is
constructed: the trace grows by the resolver calls and by the construction,
the start and the registration of the clock source, in this order, whatever
the fallback registrar does afterwards. -/
theorem dw_apb_timer_init_second_trace {env : Env} {np : device_node} {s0 s1 : State}
    {r : Resolved} (h : timer_get_base_and_rate env np s0 = .ok r s1)
    (hcs : env.clocksource_init = true) (s : State) (hn : s.num_called = 1) :
    ∃ post, (dw_apb_timer_init env np s).trace =
      s.trace ++ ([.pr_debug "dw_apb_timer_init: found clocksource timer\n"] ++
        resolver_events env np) ++
        [.dw_apb_clocksource_init ⟨300, np.name, r.base, r.phys, r.rate⟩,
         .dw_apb_clocksource_start ⟨300, np.name, r.base, r.phys, r.rate⟩,
         .dw_apb_clocksource_register ⟨300, np.name, r.base, r.phys, r.rate⟩] ++ post := by
  have h01 : (1 : Int) ≠ 0 := by decide
  cases hsp : env.sptimer with
  | none =>
    rw [dw_apb_timer_init_second h hcs hsp s hn]
    exact ⟨[.sched_clock_register 32 r.rate] ++
        if env.CONFIG_ARM = true then [.register_current_timer_delay r.rate] else [],
      by simp only [Result.trace, List.append_assoc]⟩
  | some sp =>
    rcases resolver_cases env sp with ⟨rsp, hrs⟩ | ⟨msg, hps⟩
    · rw [dw_apb_timer_init_second_some h hcs hsp (hrs boot) s hn]
      exact ⟨resolver_events env sp ++
          [.of_node_put sp.name, .sched_clock_register 32 rsp.rate] ++
          if env.CONFIG_ARM = true then [.register_current_timer_delay rsp.rate] else [],
        by simp only [Result.trace, List.append_assoc]⟩
    · refine ⟨resolver_events env sp, ?_⟩
      simp only [dw_apb_timer_init, hn, h01, if_false, add_clocksource_ok h hcs,
        init_sched_clock, hsp, hps]
      simp [Result.trace, State.extend, State.emit]

/-- C8: for nodes A then B, where A has an interrupt line i ≠ 0, both
resolve and both constructions succeed, the trace of the two invocations
holds, in this order, the construction and the registration of a clock-event
device with the name of A, rating 300, the base resolved for A, irq i and
the rate resolved for A, then the construction, the start and the
registration of a clock-source device with the name of B, rating 300 and the
base, physical address and rate resolved for B; without a dedicated
scheduler-clock node the two invocations return and the scheduler-clock rate
is the rate resolved for B. -/
theorem event_then_source (env : Env) (A B : device_node) (rA rB : Resolved)
    (a0 a1 b0 b1 : State) (hirq : irq_of_parse_and_map A ≠ 0)
    (hA : timer_get_base_and_rate env A a0 = .ok rA a1)
    (hB : timer_get_base_and_rate env B b0 = .ok rB b1)
    (hce : env.clockevent_init = true) (hcs : env.clocksource_init = true) :
    (∃ pre mid post, (timer_probe env [A, B] boot).trace =
      pre ++
      [.dw_apb_clockevent_init ⟨0, A.name, 300, rA.base, irq_of_parse_and_map A, rA.rate⟩,
       .dw_apb_clockevent_register ⟨0, A.name, 300, rA.base, irq_of_parse_and_map A, rA.rate⟩]
      ++ mid ++
      [.dw_apb_clocksource_init ⟨300, B.name, rB.base, rB.phys, rB.rate⟩,
       .dw_apb_clocksource_start ⟨300, B.name, rB.base, rB.phys, rB.rate⟩,
       .dw_apb_clocksource_register ⟨300, B.name, rB.base, rB.phys, rB.rate⟩] ++ post) ∧
    (env.sptimer = none →
      ∃ s, timer_probe env [A, B] boot = .ok () s ∧ s.sched_rate = rB.rate) := by
  obtain ⟨S1, e1, hn1, ht1⟩ : ∃ S1, dw_apb_timer_init env A boot = .ok 0 S1 ∧
      S1.num_called = 1 ∧
      S1.trace = [.pr_debug "dw_apb_timer_init: found clockevent timer\n",
          .irq_of_parse_and_map A.name (irq_of_parse_and_map A)] ++ resolver_events env A ++
        [.dw_apb_clockevent_init ⟨0, A.name, 300, rA.base, irq_of_parse_and_map A, rA.rate⟩,
         .dw_apb_clockevent_register
            ⟨0, A.name, 300, rA.base, irq_of_parse_and_map A, rA.rate⟩] :=
    ⟨_, dw_apb_timer_init_first hirq hA hce boot rfl, rfl, by simp [State.extend, boot]⟩
  refine ⟨?_, ?_⟩
  · obtain ⟨post, hpost⟩ := dw_apb_timer_init_second_trace hB hcs S1 hn1
    refine ⟨[.pr_debug "dw_apb_timer_init: found clockevent timer\n",
        .irq_of_parse_and_map A.name (irq_of_parse_and_map A)] ++ resolver_events env A,
      [.pr_debug "dw_apb_timer_init: found clocksource timer\n"] ++ resolver_events env B,
      post, ?_⟩
    simp only [timer_probe, e1]
    cases h2 : dw_apb_timer_init env B S1 with
    | panic m t =>
      rw [h2] at hpost
      simp only [Result.trace] at hpost ⊢
      rw [hpost, ht1]
    | ok v sb =>
      rw [h2] at hpost
      simp only [Result.trace] at hpost ⊢
      rw [hpost, ht1]
  · intro hsp
    simp only [timer_probe, e1, dw_apb_timer_init_second hB hcs hsp S1 hn1]
    exact ⟨_, rfl, rfl⟩

/-- Witness of C8: "T0" with interrupt line 5 and a "timer" clock at
50,000,000 Hz, then "T1" with "clock-freq" 25,000,000 and no "timer"
clock. -/
theorem event_then_source_T0_T1 :
    irq_of_parse_and_map T0 = 5 ∧ irq_of_parse_and_map T0 ≠ 0 ∧
    timer_get_base_and_rate arm32 T0 boot = .ok ⟨0x1000, 0xFFC08000, 50000000⟩
      (boot.extend (resolver_events arm32 T0)) ∧
    timer_get_base_and_rate arm32 T1 boot = .ok ⟨0x2000, 0xFFC09000, 25000000⟩
      (boot.extend (resolver_events arm32 T1)) ∧
    arm32.clockevent_init = true ∧ arm32.clocksource_init = true ∧
    ((∃ pre mid post, (timer_probe arm32 [T0, T1] boot).trace =
      pre ++
      [.dw_apb_clockevent_init ⟨0, "T0", 300, 0x1000, 5, 50000000⟩,
       .dw_apb_clockevent_register ⟨0, "T0", 300, 0x1000, 5, 50000000⟩]
      ++ mid ++
      [.dw_apb_clocksource_init ⟨300, "T1", 0x2000, 0xFFC09000, 25000000⟩,
       .dw_apb_clocksource_start ⟨300, "T1", 0x2000, 0xFFC09000, 25000000⟩,
       .dw_apb_clocksource_register ⟨300, "T1", 0x2000, 0xFFC09000, 25000000⟩] ++ post) ∧
    (arm32.sptimer = none →
      ∃ s, timer_probe arm32 [T0, T1] boot = .ok () s ∧ s.sched_rate = 25000000)) :=
  ⟨by decide, by decide, by decide, by decide, rfl, rfl,
    event_then_source arm32 T0 T1 ⟨0x1000, 0xFFC08000, 50000000⟩ ⟨0x2000, 0xFFC09000, 25000000⟩
      boot _ boot _ (by decide) rfl rfl rfl rfl⟩

/-- A message that ends with the name includes it. -/
theorem includes_name_append (pre name : String) : includes_name (pre ++ name) name := by
  unfold includes_name
  rw [String.data_append]
  exact ⟨pre.data, [], by simp⟩

/-- The panic of the label `try_clock_freq`. -/
theorem try_clock_freq_panic_message {np : device_node} {b p : Nat} {s : State} {msg : String}
    {t : List Event} (h : try_clock_freq np b p s = .panic msg t) :
    msg = "No clock nor clock-frequency property for " ++ np.name := by
  unfold try_clock_freq at h
  cases hcf : of_property_read_u32 np.clock_freq with
  | some v => simp [hcf] at h
  | none =>
    cases hcfy : of_property_read_u32 np.clock_frequency with
    | some v => simp [hcf, hcfy] at h
    | none =>
      simp only [hcf, hcfy, Result.panic.injEq] at h
      exact h.1.symm

/-- The two panics of the resolver, in every state. -/
theorem resolver_panic_message {env : Env} {np : device_node} {s : State} {msg : String}
    {t : List Event} (h : timer_get_base_and_rate env np s = .panic msg t) :
    msg = "Unable to map regs for " ++ np.name ∨
    msg = "No clock nor clock-frequency property for " ++ np.name := by
  by_cases hb : np.iomap = 0
  · simp only [timer_get_base_and_rate, hb, if_true, Result.panic.injEq] at h
    exact Or.inl h.1.symm
  · cases hres : np.resource with
    | none =>
      simp only [timer_get_base_and_rate, hb, hres, if_false, Result.panic.injEq] at h
      exact Or.inl h.1.symm
    | some start =>
      by_cases hclk : np.timer_clk = none ∨ ∃ c, np.timer_clk = some c ∧ c.prepare_enable ≠ 0
      · rw [resolver_falls_through env np s start hb hres hclk] at h
        exact Or.inr (try_clock_freq_panic_message h)
      · cases ht : np.timer_clk with
        | none => exact absurd (Or.inl ht) hclk
        | some c =>
          have h0 : c.prepare_enable = 0 := by
            by_contra hne
            exact hclk (Or.inr ⟨c, ht, hne⟩)
          rw [resolver_timer_clk env np s start c hb hres ht h0] at h
          simp at h

/-- C9, refuted as stated: the node "T1" has no interrupt line; as first
match its invocation aborts in the event-timer installer with a message that
does not include the name of the node. -/
theorem abort_without_node_name :
    ∃ t, dw_apb_timer_init arm32 T1 boot = .panic "No IRQ for clock event timer" t ∧
      T1.name = "T1" ∧ ¬ includes_name "No IRQ for clock event timer" T1.name :=
  ⟨_, rfl, rfl, by decide⟩

/-- C9 (amended): every fatal abort raised by the resolver carries a message
that includes the name of the node, also when the resolver runs inside the
event-timer installer or the source-timer installer; the aborts raised by
the installers themselves carry fixed messages: "No IRQ for clock event
timer" for a missing interrupt line, "Unable to initialise clockevent
device" and "Unable to initialise clocksource device" when the construction
returns no device. -/
theorem abort_diagnostics (env : Env) (np : device_node) (s : State) :
    (∀ msg t, timer_get_base_and_rate env np s = .panic msg t → includes_name msg np.name) ∧
    (∀ msg t, add_clockevent env np s = .panic msg t →
      (irq_of_parse_and_map np = 0 ∧ msg = "No IRQ for clock event timer") ∨
      (irq_of_parse_and_map np ≠ 0 ∧ env.clockevent_init = false ∧
        msg = "Unable to initialise clockevent device") ∨
      (irq_of_parse_and_map np ≠ 0 ∧ includes_name msg np.name ∧
        ∃ t', timer_get_base_and_rate env np boot = .panic msg t')) ∧
    (∀ msg t, add_clocksource env np s = .panic msg t →
      (env.clocksource_init = false ∧ msg = "Unable to initialise clocksource device") ∨
      (includes_name msg np.name ∧
        ∃ t', timer_get_base_and_rate env np boot = .panic msg t')) ∧
    (irq_of_parse_and_map np = 0 →
      ∃ t, add_clockevent env np s = .panic "No IRQ for clock event timer" t) ∧
    (irq_of_parse_and_map np ≠ 0 → env.clockevent_init = false →
      (∃ r s', timer_get_base_and_rate env np boot = .ok r s') →
      ∃ t, add_clockevent env np s = .panic "Unable to initialise clockevent device" t) ∧
    (env.clocksource_init = false →
      (∃ r s', timer_get_base_and_rate env np boot = .ok r s') →
      ∃ t, add_clocksource env np s = .panic "Unable to initialise clocksource device" t) := by
  have hres : ∀ (s0 : State) msg t, timer_get_base_and_rate env np s0 = .panic msg t →
      includes_name msg np.name := by
    intro s0 msg t h
    rcases resolver_panic_message h with rfl | rfl <;> exact includes_name_append _ _
  refine ⟨hres s, ?_, ?_, ?_, ?_, ?_⟩
  · intro msg t h
    by_cases hirq : irq_of_parse_and_map np = 0
    · simp only [add_clockevent, hirq, if_true, Result.panic.injEq] at h
      exact Or.inl ⟨hirq, h.1.symm⟩
    · rcases resolver_cases env np with ⟨r, hr⟩ | ⟨m, hp⟩
      · cases hce : env.clockevent_init with
        | false =>
          simp only [add_clockevent, hirq, if_false, hr, hce, if_true, Result.panic.injEq] at h
          exact Or.inr (Or.inl ⟨hirq, rfl, h.1.symm⟩)
        | true => simp [add_clockevent, hirq, hr, hce] at h
      · simp only [add_clockevent, hirq, if_false, hp, Result.panic.injEq] at h
        obtain ⟨rfl, -⟩ := h
        exact Or.inr (Or.inr ⟨hirq, hres boot _ _ (hp boot), _, hp boot⟩)
  · intro msg t h
    rcases resolver_cases env np with ⟨r, hr⟩ | ⟨m, hp⟩
    · cases hcs : env.clocksource_init with
      | false =>
        simp only [add_clocksource, hr, hcs, if_true, Result.panic.injEq] at h
        exact Or.inl ⟨rfl, h.1.symm⟩
      | true => simp [add_clocksource, hr, hcs] at h
    · simp only [add_clocksource, hp, Result.panic.injEq] at h
      obtain ⟨rfl, -⟩ := h
      exact Or.inr ⟨hres boot _ _ (hp boot), _, hp boot⟩
  · intro hirq
    exact ⟨(s.emit (.irq_of_parse_and_map np.name (irq_of_parse_and_map np))).trace,
      by simp only [add_clockevent, hirq, if_true]⟩
  · rintro hirq hce ⟨r, s', hr⟩
    refine ⟨((s.emit (.irq_of_parse_and_map np.name (irq_of_parse_and_map np))).extend
      (resolver_events env np)).trace ++ [.dw_apb_clockevent_init
        ⟨0, np.name, 300, r.base, irq_of_parse_and_map np, r.rate⟩], ?_⟩
    simp only [add_clockevent, hirq, if_false, resolver_ok_anywhere hr, hce, if_true]
    simp [State.emit]
  · rintro hcs ⟨r, s', hr⟩
    refine ⟨(s.extend (resolver_events env np)).trace ++ [.dw_apb_clocksource_init
        ⟨300, np.name, r.base, r.phys, r.rate⟩], ?_⟩
    simp only [add_clocksource, resolver_ok_anywhere hr, hcs, if_true]
    simp [State.emit]

/-- Witness of C9 (amended) on the node "T1": unmapped, its resolver panic
names it; without interrupt line, the installer panic is the fixed one. -/
theorem abort_diagnostics_T1 :
    includes_name "Unable to map regs for T1" "T1" ∧
    ∃ t, add_clockevent arm32 T1 boot = .panic "No IRQ for clock event timer" t :=
  ⟨(abort_diagnostics arm32 { T1 with iomap := 0 } boot).1 "Unable to map regs for T1" _ rfl,
    (abort_diagnostics arm32 T1 boot).2.2.2.1 (by decide)⟩

/-- The resolver on a node whose registers do not map or whose physical
address does not resolve: it panics right after `of_iomap`. -/
theorem resolver_unmapped (env : Env) (np : device_node) (s : State)
    (h : np.iomap = 0 ∨ np.resource = none) :
    timer_get_base_and_rate env np s =
      .panic ("Unable to map regs for " ++ np.name) (s.trace ++ [.of_iomap np.name np.iomap]) := by
  by_cases hb : np.iomap = 0
  · simp [timer_get_base_and_rate, hb, State.emit]
  · rcases h with h | h
    · exact absurd h hb
    · simp [timer_get_base_and_rate, hb, h, State.emit]

/-- Resolver calls register nothing. -/
theorem resolver_call_not_registration {e : Event} (h : e.is_resolver_call = true) :
    e.is_registration = false := by
  cases e <;> simp_all [Event.is_resolver_call, Event.is_registration]

/-- C10: in state 0 an invocation on a node without interrupt line aborts
before the resolver is called: the trace gains only the debug message and the
interrupt lookup, so no mapping, reset pulse, clock enable or registration.
In states 0 and 1 an invocation on a node whose register region does not map
or whose physical address does not resolve aborts, and none of the calls it
made is a reset pulse, a clock enable or a registration; when the resolver is
reached the trace ends with `of_iomap`. In states 0 and 1, when the node
resolves and the construction returns no device, the invocation aborts and
the calls it made register nothing. -/
theorem unrecoverable_errors_abort (env : Env) (np : device_node) (s : State) :
    (s.num_called = 0 → irq_of_parse_and_map np = 0 →
      dw_apb_timer_init env np s = .panic "No IRQ for clock event timer"
        (s.trace ++ [.pr_debug "dw_apb_timer_init: found clockevent timer\n",
          .irq_of_parse_and_map np.name 0])) ∧
    ((s.num_called = 0 ∨ s.num_called = 1) → (np.iomap = 0 ∨ np.resource = none) →
      ∃ msg new, dw_apb_timer_init env np s = .panic msg (s.trace ++ new) ∧
        ∀ e ∈ new, e.is_reset_or_enable = false ∧ e.is_registration = false) ∧
    (s.num_called = 0 → irq_of_parse_and_map np ≠ 0 → (np.iomap = 0 ∨ np.resource = none) →
      dw_apb_timer_init env np s = .panic ("Unable to map regs for " ++ np.name)
        (s.trace ++ [.pr_debug "dw_apb_timer_init: found clockevent timer\n",
          .irq_of_parse_and_map np.name (irq_of_parse_and_map np),
          .of_iomap np.name np.iomap])) ∧
    (s.num_called = 1 → (np.iomap = 0 ∨ np.resource = none) →
      dw_apb_timer_init env np s = .panic ("Unable to map regs for " ++ np.name)
        (s.trace ++ [.pr_debug "dw_apb_timer_init: found clocksource timer\n",
          .of_iomap np.name np.iomap])) ∧
    (s.num_called = 0 → irq_of_parse_and_map np ≠ 0 →
      (∃ r s', timer_get_base_and_rate env np boot = .ok r s') →
      env.clockevent_init = false →
      ∃ new, dw_apb_timer_init env np s =
          .panic "Unable to initialise clockevent device" (s.trace ++ new) ∧
        ∀ e ∈ new, e.is_registration = false) ∧
    (s.num_called = 1 →
      (∃ r s', timer_get_base_and_rate env np boot = .ok r s') →
      env.clocksource_init = false →
      ∃ new, dw_apb_timer_init env np s =
          .panic "Unable to initialise clocksource device" (s.trace ++ new) ∧
        ∀ e ∈ new, e.is_registration = false) := by
  have h01 : (1 : Int) ≠ 0 := by decide
  have hb0 : s.num_called = 0 → irq_of_parse_and_map np ≠ 0 →
      (np.iomap = 0 ∨ np.resource = none) →
      dw_apb_timer_init env np s = .panic ("Unable to map regs for " ++ np.name)
        (s.trace ++ [.pr_debug "dw_apb_timer_init: found clockevent timer\n",
          .irq_of_parse_and_map np.name (irq_of_parse_and_map np),
          .of_iomap np.name np.iomap]) := by
    intro hn hirq hmap
    simp only [dw_apb_timer_init, hn, if_true, add_clockevent, hirq, if_false,
      resolver_unmapped env np _ hmap]
    simp [State.emit]
  have hb1 : s.num_called = 1 → (np.iomap = 0 ∨ np.resource = none) →
      dw_apb_timer_init env np s = .panic ("Unable to map regs for " ++ np.name)
        (s.trace ++ [.pr_debug "dw_apb_timer_init: found clocksource timer\n",
          .of_iomap np.name np.iomap]) := by
    intro hn hmap
    simp only [dw_apb_timer_init, hn, h01, if_false, if_true, add_clocksource,
      resolver_unmapped env np _ hmap]
    simp [State.emit]
  have ha : s.num_called = 0 → irq_of_parse_and_map np = 0 →
      dw_apb_timer_init env np s = .panic "No IRQ for clock event timer"
        (s.trace ++ [.pr_debug "dw_apb_timer_init: found clockevent timer\n",
          .irq_of_parse_and_map np.name 0]) := by
    intro hn hirq
    simp only [dw_apb_timer_init, hn, if_true, add_clockevent, hirq]
    simp [State.emit]
  refine ⟨ha, ?_, hb0, hb1, ?_, ?_⟩
  · intro hn hmap
    rcases hn with hn | hn
    · by_cases hirq : irq_of_parse_and_map np = 0
      · refine ⟨_, _, ha hn hirq, fun e he => ?_⟩
        simp only [List.mem_cons, List.mem_singleton, List.not_mem_nil, or_false] at he
        rcases he with rfl | rfl <;> exact ⟨rfl, rfl⟩
      · refine ⟨_, _, hb0 hn hirq hmap, fun e he => ?_⟩
        simp only [List.mem_cons, List.mem_singleton, List.not_mem_nil, or_false] at he
        rcases he with rfl | rfl | rfl <;> exact ⟨rfl, rfl⟩
    · refine ⟨_, _, hb1 hn hmap, fun e he => ?_⟩
      simp only [List.mem_cons, List.mem_singleton, List.not_mem_nil, or_false] at he
      rcases he with rfl | rfl <;> exact ⟨rfl, rfl⟩
  · rintro hn hirq ⟨r, s', hr⟩ hce
    refine ⟨[.pr_debug "dw_apb_timer_init: found clockevent timer\n",
        .irq_of_parse_and_map np.name (irq_of_parse_and_map np)] ++ resolver_events env np ++
        [.dw_apb_clockevent_init ⟨0, np.name, 300, r.base, irq_of_parse_and_map np, r.rate⟩],
      ?_, ?_⟩
    · simp only [dw_apb_timer_init, hn, if_true, add_clockevent, hirq, if_false,
        resolver_ok_anywhere hr, hce]
      simp [State.emit, State.extend]
    · intro e he
      simp only [List.mem_append, List.mem_cons, List.mem_singleton, List.not_mem_nil,
        or_false] at he
      rcases he with ((rfl | rfl) | he) | rfl
      · rfl
      · rfl
      · exact resolver_call_not_registration (resolver_events_kind env np e he)
      · rfl
  · rintro hn ⟨r, s', hr⟩ hcs
    refine ⟨[.pr_debug "dw_apb_timer_init: found clocksource timer\n"] ++
        resolver_events env np ++
        [.dw_apb_clocksource_init ⟨300, np.name, r.base, r.phys, r.rate⟩], ?_, ?_⟩
    · simp only [dw_apb_timer_init, hn, h01, if_false, if_true, add_clocksource,
        resolver_ok_anywhere hr, hcs]
      simp [State.emit, State.extend]
    · intro e he
      simp only [List.mem_append, List.mem_singleton] at he
      rcases he with (rfl | he) | rfl
      · rfl
      · exact resolver_call_not_registration (resolver_events_kind env np e he)
      · rfl

/-- Witness of C10: "T1" has no interrupt line and aborts in state 0 before
any mapping; "T0" without a register mapping aborts in state 0 right after
`of_iomap`; "T0" on a host where the construction fails aborts without a
registration. -/
theorem unrecoverable_errors_abort_samples :
    dw_apb_timer_init arm32 T1 boot = .panic "No IRQ for clock event timer"
      [.pr_debug "dw_apb_timer_init: found clockevent timer\n",
        .irq_of_parse_and_map "T1" 0] ∧
    dw_apb_timer_init arm32 { T0 with iomap := 0 } boot = .panic "Unable to map regs for T0"
      [.pr_debug "dw_apb_timer_init: found clockevent timer\n",
        .irq_of_parse_and_map "T0" 5, .of_iomap "T0" 0] ∧
    (∃ new, dw_apb_timer_init { arm32 with clockevent_init := false } T0 boot =
        .panic "Unable to initialise clockevent device" (boot.trace ++ new) ∧
      ∀ e ∈ new, e.is_registration = false) :=
  ⟨(unrecoverable_errors_abort arm32 T1 boot).1 rfl (by decide),
    (unrecoverable_errors_abort arm32 { T0 with iomap := 0 } boot).2.2.1 rfl (by decide)
      (Or.inl rfl),
    (unrecoverable_errors_abort { arm32 with clockevent_init := false } T0 boot).2.2.2.2.1 rfl
      (by decide) ⟨_, _, rfl⟩ rfl⟩

end DwApbTimerOf
